import Mathlib

/-!
# SQL-QA-Agent: verification of the analysis and decision engine

A shallow embedding of the core of the `sqlqa` package (files
`sqlqa/reporter.py`, `sqlqa/baseline.py`, `sqlqa/optimizer.py`,
`sqlqa/static_rules.py`, `sqlqa/graph.py`, `sqlqa/models.py`) together with
theorems settling the specification claims about it.

Modelling conventions:
* Python `float` is embedded as `ℚ` (exact arithmetic; none of the verified
  properties depends on binary rounding), Python `int` as `Int`.
* `Optional[T]` fields are `Option T`; Python truthiness of optional values
  (`if x:`, `x or y`) is embedded by explicit `pyTruthy…` helpers, because
  Python treats `None`, `0`, `0.0`, `""` and empty containers alike as false.
* Exceptions raised by a collaborator are embedded as `Except Unit` results;
  fallible pure code returns `Option`.
* The external SQL parser (`sqlglot`) is an out-of-scope collaborator: a
  statement's parse result is passed in as `Option Expr` (`none` models a
  raised parse error).  `Expr` mirrors the sqlglot node kinds the engine
  inspects, and `find_all` is embedded with sqlglot's breadth-first walk
  (`Expression.find_all` defaults to `bfs=True`), visiting a node first and
  then its argument lists in declaration order.
-/

namespace SQLQA

/-- Python truthiness of an `Optional[str]`: `None` and `""` are falsy. -/
def pyTruthyOptStr : Option String → Bool
  | none => false
  | some s => !(s == "")

/-- Python truthiness of an `Optional[float]`: `None` and `0.0` are falsy. -/
def pyTruthyOptQ : Option ℚ → Bool
  | none => false
  | some v => !(v == 0)

/-- Python `x or y` on two `Optional[float]` values (used by the metrics
merge): yields `x` when `x` is truthy, else `y`. -/
def pyOrOptQ (x y : Option ℚ) : Option ℚ :=
  if pyTruthyOptQ x then x else y

/-- Python `x or 0` on an `Optional[float]` (used by the slow-query flag). -/
def pyOrQ0 : Option ℚ → ℚ
  | none => 0
  | some v => if v == 0 then 0 else v

/-- Python `x or 0` on an `Optional[int]`. -/
def pyOrI0 : Option Int → Int
  | none => 0
  | some v => if v == 0 then 0 else v

/-- Python `bool(x)` on an `Optional[bool]`: `None` maps to `False`. -/
def pyBoolOpt : Option Bool → Bool
  | none => false
  | some b => b

/-! ## JSON documents

`baseline.py` persists the baseline map with `json.dumps` / `json.loads` and
`dynamic_runner.py` carries an `EXPLAIN FORMAT=JSON` plan as a `dict`.  We
model a JSON document structurally; the textual codec of the Python standard
library (an external collaborator, not repository code) is modelled as the
identity at the document level. -/

inductive Json where
  | null
  | bool (b : Bool)
  | num (q : ℚ)
  | str (s : String)
  | arr (items : List Json)
  | obj (fields : List (String × Json))

/-- The file system visible to `save_baseline` / `load_baseline`: a partial
map from paths to the JSON document stored at the path. -/
def FileStore := String → Option Json

/-! ## Data model (`sqlqa/models.py`) -/

/-- `models.Query`: one SQL statement extracted from the repository.  The
statement kind (a `Literal["select", "update", "delete", "insert", "other"]`)
is embedded as its string value. -/
structure Query where
  id : String
  sql : String
  raw_sql : String
  source_path : String
  lineno : Int
  kind : String := "other"
deriving DecidableEq, Repr

/-- `models.StaticFinding`. -/
structure StaticFinding where
  rule_id : String
  severity : String
  message : String
deriving DecidableEq, Repr

/-- `models.DynamicMetrics`: every field independently optional. -/
structure DynamicMetrics where
  p95_ms : Option ℚ := none
  avg_ms : Option ℚ := none
  rows_examined : Option Int := none
  using_filesort : Option Bool := none
  using_temp_table : Option Bool := none
  chosen_key : Option String := none
  plan_json : Option Json := none
  plan_hash : Option String := none

/-- `models.Suggestion`. -/
structure Suggestion where
  suggestion_id : String
  type : String
  title : String
  description : String
  sql_before : Option String := none
  sql_after : Option String := none
  ddl : Option String := none
  validated_improvement : Option DynamicMetrics := none

/-- `models.BaselineEntry`. -/
structure BaselineEntry where
  p95_ms : Option ℚ := none
  rows_examined : Option Int := none
  chosen_key : Option String := none
  plan_hash : Option String := none
deriving DecidableEq, Repr

/-- `models.QueryResult`. -/
structure QueryResult where
  query : Query
  findings : List StaticFinding := []
  dynamic : Option DynamicMetrics := none
  suggestions : List Suggestion := []
  baseline_regression : Option String := none

/-! ## Policy configuration (`sqlqa/config.py`) -/

/-- `config.StaticRuleSettings`. -/
structure StaticRuleSettings where
  forbid_select_star : Bool := true
  forbid_update_delete_without_where : Bool := true
  forbid_leading_wildcard_like : Bool := true
  max_in_list : Int := 100
  require_explicit_columns_in_joins : Bool := true
deriving DecidableEq, Repr

/-- `config.SeverityConfig`: per-rule severity levels. -/
structure SeverityConfig where
  select_star : String := "warning"
  update_delete_without_where : String := "error"
  leading_wildcard_like : String := "warning"
  non_sargable_predicate : String := "warning"
  long_in_list : String := "info"
deriving DecidableEq, Repr

/-- `config.PolicyConfig` (the `targets` globs only affect extraction, which
is out of the verified core; they are carried opaquely). -/
structure PolicyConfig where
  include_paths : List String := ["**/*.py", "**/*.sql"]
  exclude_paths : List String := ["tests/**", "migrations/**"]
  static_rules : StaticRuleSettings := {}
  severity : SeverityConfig := {}
deriving DecidableEq, Repr

/-! ## Decision aggregator (`sqlqa/reporter.py`) -/

/-- `reporter.compute_decision`:

```python
def compute_decision(results: List[QueryResult]) -> str:
    has_error = any(f.severity == "error" for r in results for f in r.findings)
    has_regression = any(r.baseline_regression for r in results)
    return "fail" if has_error or has_regression else "pass"
```

`r.baseline_regression` is an `Optional[str]`, so `any(...)` uses Python
truthiness: `None` and the empty string both count as no regression. -/
def compute_decision (results : List QueryResult) : String :=
  let has_error := results.any fun r => r.findings.any fun f => f.severity == "error"
  let has_regression := results.any fun r => pyTruthyOptStr r.baseline_regression
  if has_error || has_regression then "fail" else "pass"

theorem pyTruthyOptStr_eq_true (o : Option String) :
    pyTruthyOptStr o = true ↔ ∃ s, o = some s ∧ s ≠ "" := by
  cases o <;> simp [pyTruthyOptStr]

/-- C1: the decision is `"fail"` iff some finding has severity `"error"` or
some result carries a non-empty regression reason; otherwise `"pass"`. -/
theorem compute_decision_fail_iff (results : List QueryResult) :
    compute_decision results = "fail" ↔
      ((∃ r ∈ results, ∃ f ∈ r.findings, f.severity = "error") ∨
       (∃ r ∈ results, ∃ s, r.baseline_regression = some s ∧ s ≠ "")) := by
  simp only [compute_decision]
  split
  case isTrue h =>
    simp only [Bool.or_eq_true, List.any_eq_true, beq_iff_eq] at h
    simp only [true_iff]
    rcases h with h | h
    · exact Or.inl (by
        obtain ⟨r, hr, f, hf, hsev⟩ := h
        exact ⟨r, hr, f, hf, hsev⟩)
    · exact Or.inr (by
        obtain ⟨r, hr, htru⟩ := h
        obtain ⟨s, hs, hne⟩ := (pyTruthyOptStr_eq_true _).mp htru
        exact ⟨r, hr, s, hs, hne⟩)
  case isFalse h =>
    simp only [Bool.or_eq_true, List.any_eq_true, beq_iff_eq] at h
    push_neg at h
    constructor
    · intro hcontra
      exact absurd hcontra (by decide)
    · intro hex
      rcases hex with ⟨r, hr, f, hf, hsev⟩ | ⟨r, hr, s, hs, hne⟩
      · exact absurd hsev (h.1 r hr f hf)
      · exact absurd ((pyTruthyOptStr_eq_true _).mpr ⟨s, hs, hne⟩) (h.2 r hr)

/-! ## Query fingerprinting (`sqlqa/baseline.py`)

`fingerprint_query` hashes the normalized SQL text:

```python
def fingerprint_query(query: Query) -> str:
    return hashlib.sha1(query.sql.encode("utf-8")).hexdigest()
```

`hashlib.sha1` (Python standard library) is embedded concretely: UTF-8
encoding of the text followed by the SHA-1 compression pipeline over
32-bit words, modelled as `Nat` arithmetic modulo `2 ^ 32`. -/

/-- UTF-8 encoding of one Unicode scalar value, as byte values. -/
def charUtf8 (c : Char) : List Nat :=
  let n := c.toNat
  if n < 128 then [n]
  else if n < 2048 then [192 + n / 64, 128 + n % 64]
  else if n < 65536 then [224 + n / 4096, 128 + n / 64 % 64, 128 + n % 64]
  else [240 + n / 262144, 128 + n / 4096 % 64, 128 + n / 64 % 64, 128 + n % 64]

/-- UTF-8 encoding of a string (Python `str.encode("utf-8")`). -/
def utf8Bytes (s : String) : List Nat :=
  s.data.foldr (fun c acc => charUtf8 c ++ acc) []

/-- Left rotation of a 32-bit word held in a `Nat` below `2 ^ 32`. -/
def rotl32 (x n : Nat) : Nat :=
  (x <<< n) % 4294967296 ||| x >>> (32 - n)

/-- SHA-1 message padding: `0x80`, zeros to 56 mod 64, 8-byte big-endian
bit length. -/
def sha1Pad (msg : List Nat) : List Nat :=
  let bitLen := msg.length * 8
  let z := (119 - msg.length % 64) % 64
  msg ++ [128] ++ List.replicate z 0 ++
    [bitLen >>> 56 % 256, bitLen >>> 48 % 256, bitLen >>> 40 % 256,
     bitLen >>> 32 % 256, bitLen >>> 24 % 256, bitLen >>> 16 % 256,
     bitLen >>> 8 % 256, bitLen % 256]

/-- Group four bytes at a time into big-endian 32-bit words. -/
def bytesToWords : List Nat → List Nat
  | b0 :: b1 :: b2 :: b3 :: rest =>
      (b0 * 16777216 + b1 * 65536 + b2 * 256 + b3) :: bytesToWords rest
  | _ => []

/-- Split a padded message into 64-byte chunks. -/
def chunk64 : List Nat → List (List Nat)
  | [] => []
  | b :: rest => (b :: rest).take 64 :: chunk64 ((b :: rest).drop 64)
termination_by l => l.length
decreasing_by simp [List.length_drop]; omega

/-- Expand the 16 words of a chunk into the 80-word SHA-1 schedule. -/
def sha1Schedule (w16 : List Nat) : List Nat :=
  (List.range 80).foldl
    (fun acc i =>
      if i < 16 then acc ++ [w16.getD i 0]
      else acc ++ [rotl32 (Nat.xor (Nat.xor (acc.getD (i - 3) 0) (acc.getD (i - 8) 0))
                            (Nat.xor (acc.getD (i - 14) 0) (acc.getD (i - 16) 0))) 1])
    []

/-- One SHA-1 compression round applied to a state quintuple. -/
def sha1Round (st : Nat × Nat × Nat × Nat × Nat) (iw : Nat × Nat) :
    Nat × Nat × Nat × Nat × Nat :=
  let (a, b, c, d, e) := st
  let (i, w) := iw
  let f :=
    if i < 20 then Nat.lor (Nat.land b c) (Nat.land (4294967295 - b) d)
    else if i < 40 then Nat.xor (Nat.xor b c) d
    else if i < 60 then Nat.lor (Nat.lor (Nat.land b c) (Nat.land b d)) (Nat.land c d)
    else Nat.xor (Nat.xor b c) d
  let k :=
    if i < 20 then 1518500249
    else if i < 40 then 1859775393
    else if i < 60 then 2400959708
    else 3395469782
  let temp := (rotl32 a 5 + f + e + k + w) % 4294967296
  (temp, a, rotl32 b 30, c, d)

/-- Process one 64-byte chunk into the running 5-word SHA-1 state. -/
def sha1Compress (h : List Nat) (chunk : List Nat) : List Nat :=
  let ws := sha1Schedule (bytesToWords chunk)
  let st := ((ws.enum).foldl sha1Round
      (h.getD 0 0, h.getD 1 0, h.getD 2 0, h.getD 3 0, h.getD 4 0))
  [(h.getD 0 0 + st.1) % 4294967296,
   (h.getD 1 0 + st.2.1) % 4294967296,
   (h.getD 2 0 + st.2.2.1) % 4294967296,
   (h.getD 3 0 + st.2.2.2.1) % 4294967296,
   (h.getD 4 0 + st.2.2.2.2) % 4294967296]

/-- A 32-bit word as eight lowercase hex digits. -/
def word2hex (w : Nat) : String :=
  let ds := Nat.toDigits 16 w
  String.mk (List.replicate (8 - ds.length) '0' ++ ds)

/-- SHA-1 hex digest of a byte sequence. -/
def sha1Hex (msg : List Nat) : String :=
  let final := (chunk64 (sha1Pad msg)).foldl sha1Compress
    [1732584193, 4023233417, 2562383102, 271733878, 3285377520]
  String.join (final.map word2hex)

/-- `baseline.fingerprint_query`: SHA-1 hex digest of the UTF-8 encoded
normalized SQL text.  No other `Query` field is read. -/
def fingerprint_query (query : Query) : String :=
  sha1Hex (utf8Bytes query.sql)

/-! ## Baseline persistence (`sqlqa/baseline.py`) -/

/-- `baseline.build_baseline_entry`. -/
def build_baseline_entry (metrics : DynamicMetrics) : BaselineEntry :=
  { p95_ms := metrics.p95_ms
    rows_examined := metrics.rows_examined
    chosen_key := metrics.chosen_key
    plan_hash := metrics.plan_hash }

/-- JSON image of an optional float field (`model_dump` emits `None` as
JSON `null`). -/
def jsonOfOptQ : Option ℚ → Json
  | none => Json.null
  | some q => Json.num q

/-- JSON image of an optional int field. -/
def jsonOfOptI : Option Int → Json
  | none => Json.null
  | some i => Json.num (i : ℚ)

/-- JSON image of an optional string field. -/
def jsonOfOptS : Option String → Json
  | none => Json.null
  | some s => Json.str s

/-- `BaselineEntry.model_dump()` as a JSON object, fields in declaration
order. -/
def encodeBaselineEntry (e : BaselineEntry) : Json :=
  Json.obj [("p95_ms", jsonOfOptQ e.p95_ms),
            ("rows_examined", jsonOfOptI e.rows_examined),
            ("chosen_key", jsonOfOptS e.chosen_key),
            ("plan_hash", jsonOfOptS e.plan_hash)]

/-- Read back an optional float field (pydantic accepts a JSON number or
`null`; anything else is a validation error). -/
def decodeOptQ : Json → Option (Option ℚ)
  | Json.null => some none
  | Json.num q => some (some q)
  | _ => none

/-- Read back an optional int field (a JSON number with an integral value). -/
def decodeOptI : Json → Option (Option Int)
  | Json.null => some none
  | Json.num q => if q.den = 1 then some (some q.num) else none
  | _ => none

/-- Read back an optional string field. -/
def decodeOptS : Json → Option (Option String)
  | Json.null => some none
  | Json.str s => some (some s)
  | _ => none

/-- Look up a key of a JSON object's field list (first occurrence, as in a
Python dict built by `json.loads`). -/
def jsonLookup (k : String) : List (String × Json) → Option Json
  | [] => none
  | (k2, v) :: rest => if k2 == k then some v else jsonLookup k rest

/-- `BaselineEntry(**v)`: construct an entry from a decoded JSON object;
missing keys take the field default `None`, unknown keys are ignored, a
wrongly-typed value raises a validation error (`none`). -/
def decodeBaselineEntry : Json → Option BaselineEntry
  | Json.obj fields => do
      let p95 ← (jsonLookup "p95_ms" fields).elim (some none) decodeOptQ
      let rows ← (jsonLookup "rows_examined" fields).elim (some none) decodeOptI
      let ck ← (jsonLookup "chosen_key" fields).elim (some none) decodeOptS
      let ph ← (jsonLookup "plan_hash" fields).elim (some none) decodeOptS
      pure { p95_ms := p95, rows_examined := rows, chosen_key := ck, plan_hash := ph }
  | _ => none

/-- `baseline.save_baseline`: serialize the map (a Python dict, embedded as
an association list in insertion order) and write it at `path`.  The
`mkdir(parents=True, exist_ok=True)` call only concerns directories, which
the file-store model does not track. -/
def save_baseline (fs : FileStore) (path : String)
    (data : List (String × BaselineEntry)) : FileStore :=
  fun p =>
    if p = path then some (Json.obj (data.map fun kv => (kv.1, encodeBaselineEntry kv.2)))
    else fs p

/-- Decode the field list of a stored baseline document entry by entry,
raising (`none`) at the first validation failure. -/
def decodeEntries : List (String × Json) → Option (List (String × BaselineEntry))
  | [] => some []
  | (k, v) :: rest => do
      let e ← decodeBaselineEntry v
      let tail ← decodeEntries rest
      pure ((k, e) :: tail)

/-- `baseline.load_baseline`: a missing path yields the empty map; a stored
document is decoded entry by entry (`{k: BaselineEntry(**v) for k, v in
raw.items()}`); a malformed document raises (`none`). -/
def load_baseline (fs : FileStore) (path : String) :
    Option (List (String × BaselineEntry)) :=
  match fs path with
  | none => some []
  | some (Json.obj fields) => decodeEntries fields
  | some _ => none

/-! ## Baseline comparison (`sqlqa/baseline.py`) -/

/-- Fixed-point rendering of a rational with two decimals, modelling
Python's `f"{x:.2f}"` (the binary-rounding tie behaviour of CPython is
abstracted; theorems only rely on the metric-name prefix of the reason). -/
def fmtQ2 (q : ℚ) : String :=
  let n : Int := round (q * 100)
  let sign := if n < 0 then "-" else ""
  let m := n.natAbs
  sign ++ toString (m / 100) ++ "." ++
    (if m % 100 < 10 then "0" else "") ++ toString (m % 100)

/-- `baseline.compare_to_baseline`:

```python
def compare_to_baseline(dynamic, baseline, threshold=0.2):
    if dynamic.p95_ms is not None and baseline.p95_ms is not None:
        if dynamic.p95_ms > baseline.p95_ms * (1 + threshold):
            return True, f"p95_ms regression: ..."
    if dynamic.rows_examined is not None and baseline.rows_examined is not None:
        if dynamic.rows_examined > baseline.rows_examined * (1 + threshold):
            return True, f"rows examined regression: ..."
    return False, ""
```
-/
def compare_to_baseline (dynamic : DynamicMetrics) (baseline : BaselineEntry)
    (threshold : ℚ := 0.2) : Bool × String :=
  match dynamic.p95_ms, baseline.p95_ms with
  | some dv, some bv =>
      if bv * (1 + threshold) < dv then
        (true, "p95_ms regression: " ++ fmtQ2 dv ++ "ms > baseline " ++ fmtQ2 bv ++ "ms")
      else compareRows dynamic baseline threshold
  | _, _ => compareRows dynamic baseline threshold
where
  /-- The second (rows-examined) check of `compare_to_baseline`. -/
  compareRows (dynamic : DynamicMetrics) (baseline : BaselineEntry)
      (threshold : ℚ) : Bool × String :=
    match dynamic.rows_examined, baseline.rows_examined with
    | some dr, some br =>
        if (br : ℚ) * (1 + threshold) < (dr : ℚ) then
          (true, "rows examined regression: " ++ toString dr ++ " > baseline " ++ toString br)
        else (false, "")
    | _, _ => (false, "")

/-- A p95 regression in the sense of the baseline comparator: both sides
present and the current value strictly above baseline times `1 + threshold`. -/
def p95Regression (d : DynamicMetrics) (b : BaselineEntry) (t : ℚ) : Prop :=
  ∃ dv bv, d.p95_ms = some dv ∧ b.p95_ms = some bv ∧ bv * (1 + t) < dv

/-- A rows-examined regression: both sides present and the current count
strictly above baseline times `1 + threshold`. -/
def rowsRegression (d : DynamicMetrics) (b : BaselineEntry) (t : ℚ) : Prop :=
  ∃ dr br, d.rows_examined = some dr ∧ b.rows_examined = some br ∧
    (br : ℚ) * (1 + t) < (dr : ℚ)

theorem compareRows_characterization (d : DynamicMetrics) (b : BaselineEntry) (t : ℚ) :
    ((compare_to_baseline.compareRows d b t).1 = true ↔ rowsRegression d b t)
    ∧ (¬ rowsRegression d b t → compare_to_baseline.compareRows d b t = (false, "")) := by
  unfold compare_to_baseline.compareRows rowsRegression
  rcases hd : d.rows_examined with _ | dr <;> rcases hb : b.rows_examined with _ | br <;>
    simp_all
  split <;> simp_all

/-- C2: `compare_to_baseline` flags a regression iff the current value
strictly exceeds `baseline * (1 + threshold)` on p95 or on rows examined (a
metric missing on either side is skipped), and whenever the p95 metric
regresses — in particular when both metrics regress, since p95 is checked
first — the returned reason names latency (`"p95_ms regression: …"`). -/
theorem compare_to_baseline_characterization (d : DynamicMetrics) (b : BaselineEntry) (t : ℚ) :
    ((compare_to_baseline d b t).1 = true ↔ p95Regression d b t ∨ rowsRegression d b t)
    ∧ (p95Regression d b t →
        ∃ rest, (compare_to_baseline d b t).2 = "p95_ms regression: " ++ rest) := by
  have hrows := compareRows_characterization d b t
  have hnone : (d.p95_ms = none ∨ b.p95_ms = none) → ¬ p95Regression d b t := by
    rintro (h | h) ⟨dv, bv, hdv, hbv, _⟩ <;> simp_all
  unfold compare_to_baseline
  rcases hd : d.p95_ms with _ | dv <;> rcases hb : b.p95_ms with _ | bv <;> dsimp only
  · refine ⟨?_, fun hp => absurd hp (hnone (Or.inl hd))⟩
    rw [hrows.1]
    have := hnone (Or.inl hd)
    tauto
  · refine ⟨?_, fun hp => absurd hp (hnone (Or.inl hd))⟩
    rw [hrows.1]
    have := hnone (Or.inl hd)
    tauto
  · refine ⟨?_, fun hp => absurd hp (hnone (Or.inr hb))⟩
    rw [hrows.1]
    have := hnone (Or.inr hb)
    tauto
  · split
    case isTrue hlt =>
      refine ⟨?_, fun _ => ⟨fmtQ2 dv ++ "ms > baseline " ++ fmtQ2 bv ++ "ms", ?_⟩⟩
      · simp only [true_iff]
        exact Or.inl ⟨dv, bv, hd, hb, hlt⟩
      · simp [String.append_assoc]
    case isFalse hge =>
      have hnp : ¬ p95Regression d b t := by
        rintro ⟨dv2, bv2, hdv, hbv, hlt⟩
        rw [hd] at hdv; rw [hb] at hbv
        cases Option.some.inj hdv; cases Option.some.inj hbv
        exact absurd hlt hge
      refine ⟨?_, fun hp => absurd hp hnp⟩
      rw [hrows.1]
      tauto

/-- Witness for C2 at the spec's concrete inputs: current p95 = 130 against
baseline 100 at threshold 0.2 is a regression whose reason names latency,
while current p95 = 120 is not (the boundary is not strictly exceeded). -/
theorem compare_to_baseline_witness :
    (compare_to_baseline { p95_ms := some 130 } { p95_ms := some 100 } 0.2).1 = true
    ∧ (∃ rest, (compare_to_baseline { p95_ms := some 130 } { p95_ms := some 100 } 0.2).2 =
        "p95_ms regression: " ++ rest)
    ∧ (compare_to_baseline { p95_ms := some 120 } { p95_ms := some 100 } 0.2).1 = false := by
  refine ⟨?_, ?_, ?_⟩
  · exact (compare_to_baseline_characterization _ _ _).1.mpr
      (Or.inl ⟨130, 100, rfl, rfl, by norm_num⟩)
  · exact (compare_to_baseline_characterization _ _ _).2
      ⟨130, 100, rfl, rfl, by norm_num⟩
  · have h := (compare_to_baseline_characterization
      ({ p95_ms := some 120 } : DynamicMetrics) ({ p95_ms := some 100 } : BaselineEntry) 0.2).1
    rw [← Bool.not_eq_true]
    rw [h]
    rintro (⟨dv, bv, hdv, hbv, hlt⟩ | ⟨dr, br, hdr, _, _⟩)
    · cases Option.some.inj hdv; cases Option.some.inj hbv
      norm_num at hlt
    · exact Option.noConfusion hdr

/-- C7: the fingerprint is a function of the normalized SQL text alone; two
queries with identical `sql` get identical fingerprints whatever their ids,
source paths, line numbers or kinds. -/
theorem fingerprint_query_depends_only_on_sql (q1 q2 : Query) (h : q1.sql = q2.sql) :
    fingerprint_query q1 = fingerprint_query q2 := by
  unfold fingerprint_query
  rw [h]

/-- Witness for C7: two queries differing in id, location and kind but with
the same normalized SQL share a fingerprint. -/
theorem fingerprint_query_witness :
    fingerprint_query
        { id := "a.py:1", sql := "SELECT 1", raw_sql := "SELECT  1",
          source_path := "a.py", lineno := 1, kind := "select" } =
      fingerprint_query
        { id := "b.sql:99", sql := "SELECT 1", raw_sql := "select 1",
          source_path := "b.sql", lineno := 99, kind := "other" } :=
  fingerprint_query_depends_only_on_sql _ _ rfl

theorem decodeBaselineEntry_encode (e : BaselineEntry) :
    decodeBaselineEntry (encodeBaselineEntry e) = some e := by
  rcases e with ⟨p95, rows, ck, ph⟩
  cases p95 <;> cases rows <;> cases ck <;> cases ph <;>
    simp [decodeBaselineEntry, encodeBaselineEntry, jsonLookup, jsonOfOptQ, jsonOfOptI,
      jsonOfOptS, decodeOptQ, decodeOptI, decodeOptS, Option.elim, Rat.den_intCast,
      Rat.num_intCast, bind, pure]

/-- C8: saving a baseline map with `save_baseline` and loading the same path
with `load_baseline` returns a map equal to the original.  The map is
embedded as an association list in insertion order; a Python dict cannot
hold duplicate keys, so the quantification carries a key-distinctness
hypothesis. -/
theorem save_load_baseline_roundtrip (fs : FileStore) (path : String)
    (data : List (String × BaselineEntry)) (_keydistinct : (data.map Prod.fst).Nodup) :
    load_baseline (save_baseline fs path data) path = some data := by
  have hstep : load_baseline (save_baseline fs path data) path =
      decodeEntries (data.map fun kv => (kv.1, encodeBaselineEntry kv.2)) := by
    unfold load_baseline save_baseline
    rw [if_pos rfl]
  rw [hstep]
  clear _keydistinct hstep
  induction data with
  | nil => rfl
  | cons kv rest ih =>
      simp [decodeEntries, decodeBaselineEntry_encode, ih]

/-- Witness for C8 at a concrete two-entry baseline map. -/
theorem save_load_baseline_roundtrip_witness :
    load_baseline
        (save_baseline (fun _ => none) "reports/baseline.json"
          [("3aa1", { p95_ms := some 100, rows_examined := some 500,
                      chosen_key := some "idx_users", plan_hash := none }),
           ("77b2", {})])
        "reports/baseline.json" =
      some [("3aa1", { p95_ms := some 100, rows_examined := some 500,
                       chosen_key := some "idx_users", plan_hash := none }),
            ("77b2", {})] :=
  save_load_baseline_roundtrip _ _ _ (by decide)

/-! ## The SQL syntax tree and sqlglot's breadth-first walk

The engine inspects sqlglot parse trees through `find_all`, `args.get(...)`
and a few attribute reads.  `Expr` mirrors exactly the node kinds the engine
matches on (`Column`, `Literal`, `Star`, `Table`, `EQ`, `Or`, `And`, `Like`,
`Lower`, `Upper`, `Date`, `Substring`, `In`, `Limit`, `Select`, `Update`,
`Delete`), with a catch-all for every other node kind.  Wrapper nodes that
the engine treats transparently (`From`, `Where`, `Joins`) are inlined: the
`where` argument holds the condition, the FROM clause holds its source
tables in walk order.

`Expression.find_all` iterates `walk(bfs=True)`: the node itself first, then
its argument values level by level, arguments in declaration order.  This is
embedded as a queue-based traversal (`bfsFuel`) with an explicit fuel
argument so that the function is structurally recursive; `sizeOf e` bounds
the number of nodes reachable from `e`, so the fuel never runs out
(`bfsFuel_eq_of_le` below makes this precise). -/

inductive Expr where
  | column (name : String)
  | lit (value : String)
  | star
  | table (name : String)
  | eq (this expression : Expr)
  | orE (this expression : Expr)
  | andE (this expression : Expr)
  | like (this pattern : Expr)
  | lower (this : Expr)
  | upper (this : Expr)
  | date (this : Expr)
  | substring (this : Expr)
  | inE (this : Expr) (expressions : List Expr)
  | limit (expression : Option Expr) (offset : Option Expr)
  | selectE (expressions : List Expr) (fromTables : List Expr)
      (whereClause : Option Expr) (limitClause : Option Expr)
  | update (this : Expr) (expressions : List Expr) (whereClause : Option Expr)
  | delete (this : Expr) (whereClause : Option Expr)
  | other (args : List Expr)

/-- The argument values of a node, in sqlglot's declaration order (the
order `args.items()` yields them during a walk). -/
def Expr.children : Expr → List Expr
  | .column _ => []
  | .lit _ => []
  | .star => []
  | .table _ => []
  | .eq a b => [a, b]
  | .orE a b => [a, b]
  | .andE a b => [a, b]
  | .like a b => [a, b]
  | .lower a => [a]
  | .upper a => [a]
  | .date a => [a]
  | .substring a => [a]
  | .inE a es => a :: es
  | .limit c o => c.toList ++ o.toList
  | .selectE ps fs w l => ps ++ fs ++ w.toList ++ l.toList
  | .update t es w => t :: es ++ w.toList
  | .delete t w => t :: w.toList
  | .other cs => cs

mutual
/-- Structural node count bound of a tree, used as walk fuel (computable,
unlike the auto-derived `SizeOf`). -/
def Expr.size : Expr → Nat
  | .column _ => 1
  | .lit _ => 1
  | .star => 1
  | .table _ => 1
  | .eq a b => 1 + Expr.size a + Expr.size b
  | .orE a b => 1 + Expr.size a + Expr.size b
  | .andE a b => 1 + Expr.size a + Expr.size b
  | .like a b => 1 + Expr.size a + Expr.size b
  | .lower a => 1 + Expr.size a
  | .upper a => 1 + Expr.size a
  | .date a => 1 + Expr.size a
  | .substring a => 1 + Expr.size a
  | .inE a es => 1 + Expr.size a + Expr.sizeList es
  | .limit c o => 1 + Expr.sizeOpt c + Expr.sizeOpt o
  | .selectE ps fs w l =>
      1 + Expr.sizeList ps + Expr.sizeList fs + Expr.sizeOpt w + Expr.sizeOpt l
  | .update t es w => 1 + Expr.size t + Expr.sizeList es + Expr.sizeOpt w
  | .delete t w => 1 + Expr.size t + Expr.sizeOpt w
  | .other cs => 1 + Expr.sizeList cs

/-- Combined size of a list of trees. -/
def Expr.sizeList : List Expr → Nat
  | [] => 0
  | e :: es => Expr.size e + Expr.sizeList es

/-- Combined size of an optional tree. -/
def Expr.sizeOpt : Option Expr → Nat
  | none => 0
  | some e => Expr.size e
end

theorem sizeList_eq_sum_map (l : List Expr) :
    Expr.sizeList l = (l.map Expr.size).sum := by
  induction l with
  | nil => rfl
  | cons a t ih => simp [Expr.sizeList, ih]

theorem sizeOpt_eq_sum_map (o : Option Expr) :
    Expr.sizeOpt o = ((o.toList).map Expr.size).sum := by
  cases o <;> simp [Expr.sizeOpt]

theorem size_pos (e : Expr) : 0 < e.size := by
  cases e <;> simp [Expr.size]

/-- The combined size of a node's arguments is strictly below the node's
size: the fuel invariant of the breadth-first walk. -/
theorem children_size_lt (e : Expr) :
    ((Expr.children e).map Expr.size).sum < e.size := by
  cases e <;>
    simp [Expr.children, Expr.size, List.map_append, List.sum_append,
      sizeList_eq_sum_map, sizeOpt_eq_sum_map] <;>
    omega

/-- Queue-based breadth-first traversal with explicit fuel: pop the front
node, emit it, enqueue its arguments. -/
def bfsFuel : Nat → List Expr → List Expr
  | 0, _ => []
  | _ + 1, [] => []
  | fuel + 1, t :: queue => t :: bfsFuel fuel (queue ++ t.children)

/-- All nodes reachable from `e` in breadth-first order (`e.walk(bfs=True)`);
`Expr.size e` fuel is always sufficient. -/
def bfsAll (e : Expr) : List Expr := bfsFuel e.size [e]

/-- The traversal is independent of the fuel once the fuel reaches the
combined size of the queue: `bfsAll` really is the total breadth-first
walk. -/
theorem bfsFuel_eq_of_le : ∀ (n m : Nat) (l : List Expr),
    (l.map Expr.size).sum ≤ n → (l.map Expr.size).sum ≤ m →
    bfsFuel n l = bfsFuel m l := by
  intro n
  induction n with
  | zero =>
      intro m l hn _
      cases l with
      | nil => cases m <;> rfl
      | cons t q =>
          exfalso
          have hpos := size_pos t
          simp only [List.map_cons, List.sum_cons] at hn
          omega
  | succ n ih =>
      intro m l hn hm
      cases l with
      | nil => cases m <;> rfl
      | cons t q =>
          have hpos := size_pos t
          simp only [List.map_cons, List.sum_cons] at hn hm
          cases m with
          | zero => exfalso; omega
          | succ m2 =>
              have hch := children_size_lt t
              have hsplit : ((q ++ t.children).map Expr.size).sum
                  = (q.map Expr.size).sum + ((t.children).map Expr.size).sum := by
                simp [List.map_append, List.sum_append]
              simp only [bfsFuel]
              rw [ih m2 (q ++ t.children) (by omega) (by omega)]

/-- `expression.find_all(T)`: the breadth-first walk filtered to the nodes
matching the predicate. -/
def find_all (p : Expr → Bool) (e : Expr) : List Expr := (bfsAll e).filter p

def Expr.isOr : Expr → Bool
  | .orE _ _ => true
  | _ => false

def Expr.isEq : Expr → Bool
  | .eq _ _ => true
  | _ => false

def Expr.isColumn : Expr → Bool
  | .column _ => true
  | _ => false

def Expr.isTable : Expr → Bool
  | .table _ => true
  | _ => false

def Expr.isLike : Expr → Bool
  | .like _ _ => true
  | _ => false

def Expr.isLower : Expr → Bool
  | .lower _ => true
  | _ => false

def Expr.isUpper : Expr → Bool
  | .upper _ => true
  | _ => false

def Expr.isDate : Expr → Bool
  | .date _ => true
  | _ => false

def Expr.isSubstring : Expr → Bool
  | .substring _ => true
  | _ => false

def Expr.isIn : Expr → Bool
  | .inE _ _ => true
  | _ => false

def Expr.isLimit : Expr → Bool
  | .limit _ _ => true
  | _ => false

def Expr.isStar : Expr → Bool
  | .star => true
  | _ => false

/-- `table.name` as read by the optimizer (empty for non-table nodes). -/
def Expr.tableName : Expr → String
  | .table n => n
  | _ => ""

/-- `col.name` as read by the optimizer (empty for non-column nodes). -/
def Expr.columnName : Expr → String
  | .column n => n
  | _ => ""

/-- `expression.args.get("where")` — present only on SELECT/UPDATE/DELETE
statements (holding the condition; the `Where` wrapper is transparent). -/
def Expr.whereArg : Expr → Option Expr
  | .selectE _ _ w _ => w
  | .update _ _ w => w
  | .delete _ w => w
  | _ => none

/-- `expression.args.get("limit")`. -/
def Expr.limitArg : Expr → Option Expr
  | .selectE _ _ _ l => l
  | _ => none

/-- `limit.args.get("offset")`. -/
def Expr.offsetArg : Expr → Option Expr
  | .limit _ off => off
  | _ => none

/-- `like.args.get("expression") or like.args.get("pattern")`: the pattern
side of a LIKE node. -/
def Expr.likePattern : Expr → Option Expr
  | .like _ p => some p
  | _ => none

/-- `in_expr.args.get("expressions") or []`. -/
def Expr.inExpressions : Expr → List Expr
  | .inE _ es => es
  | _ => []

/-- A single-quote character (`'`). -/
def sqChar : Char := Char.ofNat 39

/-- A double-quote character (`"`). -/
def dqChar : Char := Char.ofNat 34

/-- A one-character string holding a single quote. -/
def sq : String := String.mk [sqChar]

/-- `Expression.sql()` as used by the engine: it only ever renders column
references (their name) and literals (rendered quoted; the wildcard test
strips the quotes away again, so the distinction between string and number
literals is immaterial to the detectors).  Other nodes render opaquely. -/
def exprSql : Expr → String
  | .column n => n
  | .lit v => sq ++ v ++ sq
  | _ => ""

def isQuoteChar (c : Char) : Bool := c == sqChar || c == dqChar

/-- Python `str.lower()` applied per character (the SQL texts involved are
ASCII, where CPython and `Char.toLower` agree). -/
def pyLower (s : String) : String := String.mk (s.data.map Char.toLower)

/-- Python `s.startswith(pre)`. -/
def pyStartsWith (s pre : String) : Bool := pre.data.isPrefixOf s.data

/-- Python `s.strip("'\"")`: drop quote characters from both ends. -/
def pyStripQuotes (s : String) : String :=
  String.mk (((s.data.dropWhile isQuoteChar).reverse.dropWhile isQuoteChar).reverse)

/-- Python `s.strip()`: drop whitespace from both ends. -/
def pyStripWs (s : String) : String :=
  String.mk (((s.data.dropWhile Char.isWhitespace).reverse.dropWhile Char.isWhitespace).reverse)

/-- `needle in haystack` on character lists. -/
def containsAux (needle : List Char) : List Char → Bool
  | [] => needle.isPrefixOf []
  | c :: rest => needle.isPrefixOf (c :: rest) || containsAux needle rest

/-- Python's `needle in haystack` on strings. -/
def pyContainsSubstr (haystack needle : String) : Bool :=
  containsAux needle.data haystack.data

/-! ## Optimizer engine (`sqlqa/optimizer.py`) -/

/-- `optimizer._table_name`: the first `Table` node of the breadth-first
walk, if it has a non-empty name. -/
def _table_name (e : Expr) : Option String :=
  match (find_all Expr.isTable e).head? with
  | some t => if t.tableName == "" then none else some t.tableName
  | none => none

/-- `optimizer._where_columns`: the distinct non-empty column names of the
WHERE clause in discovery (breadth-first) order. -/
def _where_columns (e : Expr) : List String :=
  match e.whereArg with
  | none => []
  | some w =>
      (find_all Expr.isColumn w).foldl
        (fun cols c =>
          if !(c.columnName == "") && !(cols.contains c.columnName) then
            cols ++ [c.columnName]
          else cols)
        []

/-- `optimizer._has_offset_limit`: the statement's `limit` argument is a
`Limit` carrying an `offset` argument, or some `Limit` node in the tree
carries one. -/
def _has_offset_limit (e : Expr) : Bool :=
  (match e.limitArg with
   | some l => l.isLimit && l.offsetArg.isSome
   | none => false)
  || (find_all Expr.isLimit e).any fun l => l.offsetArg.isSome

/-- The `(column_sql, literal_value)` pairs accumulated by
`optimizer._or_chain_to_in`: for every `Or` node of the walk, every `EQ`
descendant whose left side is a column and right side a literal.  An `EQ`
sitting below `k` nested `Or` nodes is collected `k` times. -/
def orEqPairs (e : Expr) : List (String × String) :=
  (find_all Expr.isOr e).foldr
    (fun o acc =>
      ((find_all Expr.isEq o).filterMap fun c =>
        match c with
        | .eq (.column n) (.lit v) => some (exprSql (.column n), v)
        | _ => none) ++ acc)
    []

/-- `optimizer._or_chain_to_in`:

```python
ors = list(expression.find_all(exp.Or))
eqs = []
for or_expr in ors:
    for comp in or_expr.find_all(exp.EQ):
        if isinstance(comp.left, exp.Column) and isinstance(comp.right, exp.Literal):
            eqs.append((comp.left.sql(), comp.right.this))
if not eqs:
    return None
first_col = eqs[0][0]
values = [v for col, v in eqs if col == first_col]
if len(values) >= 3:
    return first_col, values
return None
```
-/
def _or_chain_to_in (e : Expr) : Option (String × List String) :=
  match orEqPairs e with
  | [] => none
  | (first_col, v0) :: rest =>
      let values := (((first_col, v0) :: rest).filter fun p => p.1 == first_col).map Prod.snd
      if 3 ≤ values.length then some (first_col, values) else none

/-- `optimizer._leading_wildcard_like`: some LIKE pattern, rendered and
stripped of quotes, starts with `%`. -/
def _leading_wildcard_like (e : Expr) : Bool :=
  (find_all Expr.isLike e).any fun l =>
    match l.likePattern with
    | some p => pyStartsWith (pyStripQuotes (exprSql p)) "%"
    | none => false

/-- The column names rendered by the optimizer's non-sargable-date detector:
`Date` nodes of the walk whose argument is a column, in walk order. -/
def dateColumnTargets (e : Expr) : List String :=
  (find_all Expr.isDate e).filterMap fun d =>
    match d with
    | .date (.column n) => some (exprSql (.column n))
    | _ => none

/-- `(dynamic.p95_ms or 0) > 500 or (dynamic.rows_examined or 0) > 10000 or
bool(dynamic.using_filesort) or bool(dynamic.using_temp_table)`; `False`
when no metrics object was supplied. -/
def slowFlag : Option DynamicMetrics → Bool
  | none => false
  | some d =>
      decide (500 < pyOrQ0 d.p95_ms) || decide (10000 < pyOrI0 d.rows_examined)
        || pyBoolOpt d.using_filesort || pyBoolOpt d.using_temp_table

/-- The index-DDL block of `optimize_query` (`if table and cols and slow`). -/
def idxSuggestions (query : Query) (table : Option String) (cols : List String)
    (slow : Bool) : List Suggestion :=
  match table with
  | some t =>
      if !(t == "") && !cols.isEmpty && slow then
        [{ suggestion_id := query.id ++ "-idx", type := "index_ddl",
           title := "Add composite index for WHERE/JOIN columns",
           description := "Align index with filtered columns to avoid full scans and temp tables.",
           sql_before := some query.sql,
           ddl := some ("CREATE INDEX idx_" ++ t ++ "_composite ON " ++ t ++ " (" ++
             String.intercalate ", " cols ++ ");") }]
      else []
  | none => []

/-- The non-sargable-date block of `optimize_query` (first qualifying `Date`
node only — the loop breaks after appending). -/
def dateSuggestions (query : Query) (e : Expr) : List Suggestion :=
  match (dateColumnTargets e).head? with
  | some colSql =>
      [{ suggestion_id := query.id ++ "-date", type := "query_rewrite",
         title := "Rewrite DATE(column) predicate",
         description := "Use a range filter on " ++ colSql ++ " to stay sargable.",
         sql_before := some query.sql,
         sql_after := some (query.sql ++ " -- Suggest range filter instead of DATE(column)") }]
  | none => []

/-- The OFFSET-pagination block of `optimize_query`. -/
def offsetSuggestions (query : Query) (e : Expr) : List Suggestion :=
  if _has_offset_limit e || pyContainsSubstr (pyLower query.sql) " offset " then
    [{ suggestion_id := query.id ++ "-offset", type := "query_rewrite",
       title := "Replace OFFSET pagination with keyset",
       description := "Use keyset pagination to avoid scanning skipped rows.",
       sql_before := some query.sql,
       sql_after := some (query.sql ++ " -- Apply keyset pagination using last seen id") }]
  else []

/-- The OR-chain-to-IN block of `optimize_query`. -/
def inSuggestions (query : Query) (e : Expr) : List Suggestion :=
  match _or_chain_to_in e with
  | some (col, values) =>
      [{ suggestion_id := query.id ++ "-in", type := "query_rewrite",
         title := "Convert OR chain to IN",
         description := "Use IN list on " ++ col ++ " to simplify predicates and aid indexing.",
         sql_before := some query.sql,
         sql_after := some (query.sql ++ " -- Consider " ++ col ++ " IN (" ++
           String.intercalate ", " values ++ ")") }]
  | none => []

/-- The leading-wildcard-LIKE block of `optimize_query`. -/
def fulltextSuggestions (query : Query) (e : Expr) : List Suggestion :=
  if _leading_wildcard_like e then
    [{ suggestion_id := query.id ++ "-fulltext", type := "query_rewrite",
       title := "Replace leading wildcard LIKE",
       description := "Consider FULLTEXT index or inverted index for prefix/suffix searches.",
       sql_before := some query.sql,
       sql_after := some (query.sql ++ " -- Consider FULLTEXT index") }]
  else []

/-- The validation pass of `optimize_query`: when a connection is available,
every suggestion carrying a rewritten SQL text gets `validated_improvement`
set to the probe's outcome (`none` models a raised `Exception`, which the
code swallows). -/
def validateSuggestion (probe : String → Option DynamicMetrics) (s : Suggestion) : Suggestion :=
  match s.sql_after with
  | some sa => { s with validated_improvement := probe sa }
  | none => s

/-- `optimizer.optimize_query`.  The sqlglot parse of `query.sql` is passed
in as `parsed` (`none` models a raised parse error, on which the function
returns the empty suggestion list); the optional live connection is passed
as a probe capability (`run_explain_analyze` on the rewritten text). -/
def optimize_query (parsed : Option Expr) (query : Query)
    (dynamic : Option DynamicMetrics)
    (conn : Option (String → Option DynamicMetrics)) : List Suggestion :=
  match parsed with
  | none => []
  | some expression =>
      let table := _table_name expression
      let cols := _where_columns expression
      let slow := slowFlag dynamic
      let suggestions :=
        idxSuggestions query table cols slow ++ dateSuggestions query expression ++
          offsetSuggestions query expression ++ inSuggestions query expression ++
          fulltextSuggestions query expression
      match conn with
      | none => suggestions
      | some probe => suggestions.map (validateSuggestion probe)

/-! ## Rule engine (`sqlqa/static_rules.py`) -/

/-- `static_rules.rule_select_star`. -/
def rule_select_star (config : PolicyConfig) (expression : Expr) : List StaticFinding :=
  if !config.static_rules.forbid_select_star then []
  else
    match expression with
    | .selectE ps _ _ _ =>
        if ps.any Expr.isStar then
          [{ rule_id := "select_star", severity := config.severity.select_star,
             message := "Query selects all columns with " ++ sq ++ "*" ++ sq ++ "." }]
        else []
    | _ => []

/-- `static_rules.rule_update_delete_without_where`. -/
def rule_update_delete_without_where (config : PolicyConfig) (expression : Expr) :
    List StaticFinding :=
  if !config.static_rules.forbid_update_delete_without_where then []
  else
    match expression with
    | .update _ _ none =>
        [{ rule_id := "update_delete_without_where",
           severity := config.severity.update_delete_without_where,
           message := "UPDATE/DELETE statement without WHERE clause." }]
    | .delete _ none =>
        [{ rule_id := "update_delete_without_where",
           severity := config.severity.update_delete_without_where,
           message := "UPDATE/DELETE statement without WHERE clause." }]
    | _ => []

/-- `static_rules.rule_leading_wildcard_like`: one finding per offending
LIKE node (`pattern.sql().strip().strip("'\"")` starts with `%`). -/
def rule_leading_wildcard_like (config : PolicyConfig) (expression : Expr) :
    List StaticFinding :=
  if !config.static_rules.forbid_leading_wildcard_like then []
  else
    (find_all Expr.isLike expression).filterMap fun l =>
      match l.likePattern with
      | some p =>
          if pyStartsWith (pyStripQuotes (pyStripWs (exprSql p))) "%" then
            some { rule_id := "leading_wildcard_like",
                   severity := config.severity.leading_wildcard_like,
                   message := "LIKE pattern starts with a wildcard, which is non-sargable." }
          else none
      | none => none

/-- `func.find(exp.Column)` is non-`None`. -/
def exprContainsColumn (f : Expr) : Bool := !(find_all Expr.isColumn f).isEmpty

/-- `static_rules.rule_non_sargable_predicate`: at most one finding — the
loop returns at the first `Lower`/`Upper`/`Date`/`Substring` call in the
WHERE clause that wraps a column. -/
def rule_non_sargable_predicate (config : PolicyConfig) (expression : Expr) :
    List StaticFinding :=
  match expression.whereArg with
  | none => []
  | some w =>
      if (find_all Expr.isLower w).any exprContainsColumn
          || (find_all Expr.isUpper w).any exprContainsColumn
          || (find_all Expr.isDate w).any exprContainsColumn
          || (find_all Expr.isSubstring w).any exprContainsColumn then
        [{ rule_id := "non_sargable_predicate",
           severity := config.severity.non_sargable_predicate,
           message := "Non-sargable predicate using a function on a column." }]
      else []

/-- `static_rules.rule_long_in_list`: one finding per `IN (...)` list whose
length exceeds the configured maximum. -/
def rule_long_in_list (config : PolicyConfig) (expression : Expr) : List StaticFinding :=
  (find_all Expr.isIn expression).filterMap fun i =>
    if config.static_rules.max_in_list < (i.inExpressions.length : Int) then
      some { rule_id := "long_in_list", severity := config.severity.long_in_list,
             message := "IN list has " ++ toString i.inExpressions.length ++
               " items (max " ++ toString config.static_rules.max_in_list ++ ")." }
    else none

/-- `static_rules.analyze_query`: on parse failure (`parsed = none`, the
`except Exception` / `expression is None` paths) the finding list is empty;
otherwise the five detectors run in declaration order against the same
tree.  The `query` record itself is never read by any detector. -/
def analyze_query (parsed : Option Expr) (query : Query) (config : PolicyConfig) :
    List StaticFinding :=
  match parsed with
  | none => []
  | some expression =>
      rule_select_star config expression ++
        rule_update_delete_without_where config expression ++
        rule_leading_wildcard_like config expression ++
        rule_non_sargable_predicate config expression ++
        rule_long_in_list config expression

/-- `static_rules.run_static_checks` over a parsing capability. -/
def run_static_checks (parse : Query → Option Expr) (queries : List Query)
    (config : PolicyConfig) : List QueryResult :=
  queries.map fun q => { query := q, findings := analyze_query (parse q) q config }

/-! ## Metrics merger (`sqlqa/graph.py`, `dynamic_checks_node`) -/

/-- A probe outcome caught by the node's `try/except`: a raised error is
replaced by an empty `DynamicMetrics()`. -/
def caughtMetrics : Except Unit DynamicMetrics → DynamicMetrics
  | .ok m => m
  | .error _ => {}

/-- The merged metrics record built inside `dynamic_checks_node`:
`p95_ms`/`avg_ms` via Python `or` from the latency probe with the plan
value as fallback, every other field from the plan metrics. -/
def mergeDynamic (plan_metrics latency_metrics : DynamicMetrics) : DynamicMetrics :=
  { p95_ms := pyOrOptQ latency_metrics.p95_ms plan_metrics.p95_ms
    avg_ms := pyOrOptQ latency_metrics.avg_ms plan_metrics.avg_ms
    rows_examined := plan_metrics.rows_examined
    using_filesort := plan_metrics.using_filesort
    using_temp_table := plan_metrics.using_temp_table
    chosen_key := plan_metrics.chosen_key
    plan_json := plan_metrics.plan_json
    plan_hash := plan_metrics.plan_hash }

/-- `graph.dynamic_checks_node`: with no database configured (a falsy DSN)
the stage is a no-op on the results; otherwise every result gets a merged
metrics object attached, the two probes being guarded individually by
`try/except` blocks substituting empty metrics. -/
def dynamic_checks_node (dsn : Option String)
    (planProbe latencyProbe : Query → Except Unit DynamicMetrics)
    (results : List QueryResult) : List QueryResult :=
  if !pyTruthyOptStr dsn then results
  else
    results.map fun res =>
      { res with
          dynamic := some (mergeDynamic (caughtMetrics (planProbe res.query))
            (caughtMetrics (latencyProbe res.query))) }

/-! ## Structural lemmas about `optimize_query` -/

/-- The five detector blocks of `optimize_query` in declaration order,
before the optional validation pass. -/
def suggestionBlocks (e : Expr) (q : Query) (d : Option DynamicMetrics) : List Suggestion :=
  idxSuggestions q (_table_name e) (_where_columns e) (slowFlag d) ++
    dateSuggestions q e ++ offsetSuggestions q e ++ inSuggestions q e ++
    fulltextSuggestions q e

theorem optimize_query_conn_none (e : Expr) (q : Query) (d : Option DynamicMetrics) :
    optimize_query (some e) q d none = suggestionBlocks e q d := rfl

theorem optimize_query_conn_some (e : Expr) (q : Query) (d : Option DynamicMetrics)
    (probe : String → Option DynamicMetrics) :
    optimize_query (some e) q d (some probe) =
      (suggestionBlocks e q d).map (validateSuggestion probe) := rfl

theorem validateSuggestion_preserves (probe : String → Option DynamicMetrics)
    (s : Suggestion) :
    (validateSuggestion probe s).suggestion_id = s.suggestion_id
    ∧ (validateSuggestion probe s).type = s.type
    ∧ (validateSuggestion probe s).ddl = s.ddl
    ∧ (validateSuggestion probe s).sql_after = s.sql_after := by
  unfold validateSuggestion
  split <;> exact ⟨rfl, rfl, rfl, rfl⟩

theorem string_append_right_inj (s t u : String) (h : s ++ t = s ++ u) : t = u := by
  have hd : (s ++ t).data = (s ++ u).data := by rw [h]
  rw [String.data_append, String.data_append] at hd
  have hlist := List.append_cancel_left hd
  cases t
  cases u
  exact congrArg String.mk hlist

theorem suggestion_tag_ne (qid : String) {t u : String} (h : t ≠ u) :
    qid ++ t ≠ qid ++ u :=
  fun hc => h (string_append_right_inj _ _ _ hc)

theorem idxSuggestions_spec (q : Query) (table : Option String) (cols : List String)
    (slow : Bool) :
    (∀ s ∈ idxSuggestions q table cols slow, s.suggestion_id = q.id ++ "-idx")
    ∧ (idxSuggestions q table cols slow).length ≤ 1 := by
  rcases table with _ | t
  · simp [idxSuggestions]
  · constructor
    · intro s hs
      simp only [idxSuggestions] at hs
      split at hs <;> simp_all
    · simp only [idxSuggestions]
      split <;> simp

theorem dateSuggestions_spec (q : Query) (e : Expr) :
    (∀ s ∈ dateSuggestions q e, s.suggestion_id = q.id ++ "-date")
    ∧ (dateSuggestions q e).length ≤ 1 := by
  unfold dateSuggestions
  split <;> simp

theorem offsetSuggestions_spec (q : Query) (e : Expr) :
    (∀ s ∈ offsetSuggestions q e, s.suggestion_id = q.id ++ "-offset")
    ∧ (offsetSuggestions q e).length ≤ 1 := by
  unfold offsetSuggestions
  split <;> simp

theorem inSuggestions_spec (q : Query) (e : Expr) :
    (∀ s ∈ inSuggestions q e, s.suggestion_id = q.id ++ "-in")
    ∧ (inSuggestions q e).length ≤ 1 := by
  unfold inSuggestions
  split <;> simp

theorem fulltextSuggestions_spec (q : Query) (e : Expr) :
    (∀ s ∈ fulltextSuggestions q e, s.suggestion_id = q.id ++ "-fulltext")
    ∧ (fulltextSuggestions q e).length ≤ 1 := by
  unfold fulltextSuggestions
  split <;> simp

theorem block_ids_sublist {bl : List Suggestion} {x : String}
    (hids : ∀ s ∈ bl, s.suggestion_id = x) (hlen : bl.length ≤ 1) :
    (bl.map fun s => s.suggestion_id).Sublist [x] := by
  cases bl with
  | nil => exact List.nil_sublist _
  | cons s rest =>
      cases rest with
      | nil =>
          simp only [List.map_cons, List.map_nil, hids s (by simp)]
          exact List.Sublist.refl _
      | cons s2 r2 => simp at hlen

/-- The suggestion identifiers of one `optimize_query` run form a sublist of
the five tagged identifiers in detector order. -/
theorem optimize_query_ids_sublist (parsed : Option Expr) (q : Query)
    (d : Option DynamicMetrics) (conn : Option (String → Option DynamicMetrics)) :
    ((optimize_query parsed q d conn).map fun s => s.suggestion_id).Sublist
      [q.id ++ "-idx", q.id ++ "-date", q.id ++ "-offset", q.id ++ "-in",
       q.id ++ "-fulltext"] := by
  have hblocks : ∀ e : Expr,
      ((suggestionBlocks e q d).map fun s => s.suggestion_id).Sublist
        [q.id ++ "-idx", q.id ++ "-date", q.id ++ "-offset", q.id ++ "-in",
         q.id ++ "-fulltext"] := by
    intro e
    unfold suggestionBlocks
    simp only [List.map_append]
    have h1 := block_ids_sublist (idxSuggestions_spec q (_table_name e)
      (_where_columns e) (slowFlag d)).1 (idxSuggestions_spec q _ _ _).2
    have h2 := block_ids_sublist (dateSuggestions_spec q e).1 (dateSuggestions_spec q e).2
    have h3 := block_ids_sublist (offsetSuggestions_spec q e).1 (offsetSuggestions_spec q e).2
    have h4 := block_ids_sublist (inSuggestions_spec q e).1 (inSuggestions_spec q e).2
    have h5 := block_ids_sublist (fulltextSuggestions_spec q e).1 (fulltextSuggestions_spec q e).2
    exact (((h1.append h2).append h3).append h4).append h5
  cases parsed with
  | none => exact List.nil_sublist _
  | some e =>
      cases conn with
      | none =>
          rw [optimize_query_conn_none]
          exact hblocks e
      | some probe =>
          rw [optimize_query_conn_some]
          rw [List.map_map]
          have hfun : ((fun s => s.suggestion_id) ∘ validateSuggestion probe)
              = fun s : Suggestion => s.suggestion_id := by
            funext s
            exact (validateSuggestion_preserves probe s).1
          rw [hfun]
          exact hblocks e

/-- The five tagged identifiers are pairwise distinct, whatever the query
id. -/
theorem tagged_ids_nodup (qid : String) :
    ([qid ++ "-idx", qid ++ "-date", qid ++ "-offset", qid ++ "-in",
      qid ++ "-fulltext"] : List String).Nodup := by
  have hrw : ([qid ++ "-idx", qid ++ "-date", qid ++ "-offset", qid ++ "-in",
      qid ++ "-fulltext"] : List String)
      = (["-idx", "-date", "-offset", "-in", "-fulltext"] : List String).map
          fun t => qid ++ t := rfl
  rw [hrw]
  exact List.Nodup.map (fun a b hab => string_append_right_inj qid a b hab) (by decide)

/-- C9: the suggestions produced for one query carry pairwise distinct
identifiers, each of them the query id extended by the emitting heuristic's
tag. -/
theorem optimize_query_ids_distinct (parsed : Option Expr) (q : Query)
    (d : Option DynamicMetrics) (conn : Option (String → Option DynamicMetrics)) :
    ((optimize_query parsed q d conn).map fun s => s.suggestion_id).Nodup
    ∧ ∀ s ∈ optimize_query parsed q d conn,
        ∃ tag ∈ (["-idx", "-date", "-offset", "-in", "-fulltext"] : List String),
          s.suggestion_id = q.id ++ tag := by
  have hsub := optimize_query_ids_sublist parsed q d conn
  constructor
  · exact hsub.nodup (tagged_ids_nodup q.id)
  · intro s hs
    have hmem : s.suggestion_id ∈
        ([q.id ++ "-idx", q.id ++ "-date", q.id ++ "-offset", q.id ++ "-in",
          q.id ++ "-fulltext"] : List String) :=
      hsub.subset (List.mem_map_of_mem _ hs)
    simp only [List.mem_cons, List.not_mem_nil, or_false] at hmem
    rcases hmem with h | h | h | h | h
    · exact ⟨"-idx", by simp, h⟩
    · exact ⟨"-date", by simp, h⟩
    · exact ⟨"-offset", by simp, h⟩
    · exact ⟨"-in", by simp, h⟩
    · exact ⟨"-fulltext", by simp, h⟩

/-- The query of the C9 witness; its SQL contains `" OFFSET "`, so exactly
the offset-pagination heuristic fires even on an uninformative parse tree. -/
def c9Query : Query :=
  { id := "w9", sql := "SELECT id FROM t LIMIT 10 OFFSET 20",
    raw_sql := "SELECT id FROM t LIMIT 10 OFFSET 20",
    source_path := "w.py", lineno := 3, kind := "select" }

/-- The single suggestion `optimize_query` emits for the C9 witness query. -/
def c9Suggestion : Suggestion :=
  { suggestion_id := "w9-offset", type := "query_rewrite",
    title := "Replace OFFSET pagination with keyset",
    description := "Use keyset pagination to avoid scanning skipped rows.",
    sql_before := some c9Query.sql,
    sql_after := some (c9Query.sql ++ " -- Apply keyset pagination using last seen id") }

/-- Witness for C9 at a concrete run producing one suggestion. -/
theorem optimize_query_ids_distinct_witness :
    ∃ tag ∈ (["-idx", "-date", "-offset", "-in", "-fulltext"] : List String),
      c9Suggestion.suggestion_id = c9Query.id ++ tag := by
  have hout : optimize_query (some (Expr.other [])) c9Query none none = [c9Suggestion] := by
    rfl
  have hmem : c9Suggestion ∈ optimize_query (some (Expr.other [])) c9Query none none := by
    rw [hout]
    exact List.mem_singleton.mpr rfl
  exact (optimize_query_ids_distinct (some (Expr.other [])) c9Query none none).2
    c9Suggestion hmem

/-- C6: a query whose SQL fails to parse (the parse capability raises, so
the engines see no tree) produces an empty finding list from the rule
engine and an empty suggestion list from the optimizer; both return
normally. -/
theorem parse_failure_empty_results (query : Query) (config : PolicyConfig)
    (dynamic : Option DynamicMetrics) (conn : Option (String → Option DynamicMetrics)) :
    analyze_query none query config = [] ∧ optimize_query none query dynamic conn = [] :=
  ⟨rfl, rfl⟩

/-- C10: with a database configured (truthy DSN), every result leaving the
dynamic-checks stage carries a metrics object, even when both probes raise
on every query. -/
theorem dynamic_checks_all_metrics_present (dsn : Option String)
    (hdsn : pyTruthyOptStr dsn = true)
    (planProbe latencyProbe : Query → Except Unit DynamicMetrics)
    (results : List QueryResult) :
    (dynamic_checks_node dsn planProbe latencyProbe results).all
      (fun r => r.dynamic.isSome) = true := by
  unfold dynamic_checks_node
  rw [hdsn]
  simp [List.all_eq_true]

/-- Witness for C10: one result, both probes raising. -/
theorem dynamic_checks_all_metrics_present_witness :
    (dynamic_checks_node (some "mysql://root@localhost/app")
        (fun _ => Except.error ()) (fun _ => Except.error ())
        [{ query := { id := "q1", sql := "SELECT 1", raw_sql := "SELECT 1",
                      source_path := "a.py", lineno := 1, kind := "select" } }]).all
      (fun r => r.dynamic.isSome) = true :=
  dynamic_checks_all_metrics_present (some "mysql://root@localhost/app") (by decide)
    (fun _ => Except.error ()) (fun _ => Except.error ()) _

/-- The metrics merge as the claim words it: `p95`/`avg` from the latency
probe *when present* (`isSome`), else from the plan metrics.  Modelled from
the claim sentence for comparison with the implementation. -/
def claimMergeDynamic (plan_metrics latency_metrics : DynamicMetrics) : DynamicMetrics :=
  { p95_ms := if latency_metrics.p95_ms.isSome then latency_metrics.p95_ms
              else plan_metrics.p95_ms
    avg_ms := if latency_metrics.avg_ms.isSome then latency_metrics.avg_ms
              else plan_metrics.avg_ms
    rows_examined := plan_metrics.rows_examined
    using_filesort := plan_metrics.using_filesort
    using_temp_table := plan_metrics.using_temp_table
    chosen_key := plan_metrics.chosen_key
    plan_json := plan_metrics.plan_json
    plan_hash := plan_metrics.plan_hash }

/-- C4 counterexample: a latency probe reporting `p95_ms = 0.0` — a present
measurement — is overridden by the plan-derived value, because the merge
uses Python `or` (truthiness), not presence. -/
theorem mergeDynamic_counterexample :
    ({ p95_ms := some 0 } : DynamicMetrics).p95_ms.isSome = true
    ∧ (mergeDynamic { p95_ms := some 50 } { p95_ms := some 0 }).p95_ms = some 50
    ∧ (claimMergeDynamic { p95_ms := some 50 } { p95_ms := some 0 }).p95_ms = some 0
    ∧ (mergeDynamic { p95_ms := some 50 } { p95_ms := some 0 }).p95_ms ≠
        (claimMergeDynamic { p95_ms := some 50 } { p95_ms := some 0 }).p95_ms := by
  refine ⟨rfl, ?_, rfl, ?_⟩ <;> decide

theorem pyOrOptQ_some_ne_zero {v : ℚ} (hv : v ≠ 0) (y : Option ℚ) :
    pyOrOptQ (some v) y = some v := by
  simp [pyOrOptQ, pyTruthyOptQ, hv]

theorem pyOrOptQ_some_zero (y : Option ℚ) : pyOrOptQ (some 0) y = y := by
  simp [pyOrOptQ, pyTruthyOptQ]

/-- C4 (amended): `p95_ms`/`avg_ms` take the latency-probe value when
present *and nonzero*, and otherwise fall back to the plan-derived value
(Python `or` collapses a present `0.0` into the fallback); every other
field comes exclusively from the plan metrics; a raised probe is replaced
by an empty metrics object, so the merge itself never fails. -/
theorem dynamic_checks_merge_amended (plan lat : DynamicMetrics) :
    (∀ v : ℚ, v ≠ 0 → lat.p95_ms = some v → (mergeDynamic plan lat).p95_ms = some v)
    ∧ ((lat.p95_ms = none ∨ lat.p95_ms = some 0) →
        (mergeDynamic plan lat).p95_ms = plan.p95_ms)
    ∧ (∀ v : ℚ, v ≠ 0 → lat.avg_ms = some v → (mergeDynamic plan lat).avg_ms = some v)
    ∧ ((lat.avg_ms = none ∨ lat.avg_ms = some 0) →
        (mergeDynamic plan lat).avg_ms = plan.avg_ms)
    ∧ (mergeDynamic plan lat).rows_examined = plan.rows_examined
    ∧ (mergeDynamic plan lat).using_filesort = plan.using_filesort
    ∧ (mergeDynamic plan lat).using_temp_table = plan.using_temp_table
    ∧ (mergeDynamic plan lat).chosen_key = plan.chosen_key
    ∧ (mergeDynamic plan lat).plan_json = plan.plan_json
    ∧ (mergeDynamic plan lat).plan_hash = plan.plan_hash
    ∧ caughtMetrics (Except.error ()) = ({} : DynamicMetrics)
    ∧ (∀ m : DynamicMetrics, caughtMetrics (Except.ok m) = m)
    ∧ (∀ (dsn : Option String), pyTruthyOptStr dsn = true →
        ∀ (planProbe latencyProbe : Query → Except Unit DynamicMetrics)
          (results : List QueryResult),
          dynamic_checks_node dsn planProbe latencyProbe results = results.map fun res =>
            { res with dynamic := some (mergeDynamic (caughtMetrics (planProbe res.query))
                (caughtMetrics (latencyProbe res.query))) }) := by
  refine ⟨?_, ?_, ?_, ?_, rfl, rfl, rfl, rfl, rfl, rfl, rfl, fun m => rfl, ?_⟩
  · intro v hv hl
    simp [mergeDynamic, hl, pyOrOptQ_some_ne_zero hv]
  · rintro (hl | hl)
    · simp [mergeDynamic, hl, pyOrOptQ, pyTruthyOptQ]
    · simp [mergeDynamic, hl, pyOrOptQ_some_zero]
  · intro v hv hl
    simp [mergeDynamic, hl, pyOrOptQ_some_ne_zero hv]
  · rintro (hl | hl)
    · simp [mergeDynamic, hl, pyOrOptQ, pyTruthyOptQ]
    · simp [mergeDynamic, hl, pyOrOptQ_some_zero]
  · intro dsn hdsn planProbe latencyProbe results
    unfold dynamic_checks_node
    rw [hdsn]
    simp

/-- Witness for C4 (amended) at concrete metrics: nonzero latency values
win, missing ones fall back, plan-only fields pass through. -/
theorem dynamic_checks_merge_amended_witness :
    (mergeDynamic
        { p95_ms := some 40, avg_ms := some 7, rows_examined := some 123 }
        { p95_ms := some 12, avg_ms := none }).p95_ms = some 12
    ∧ (mergeDynamic
        { p95_ms := some 40, avg_ms := some 7, rows_examined := some 123 }
        { p95_ms := some 12, avg_ms := none }).avg_ms = some 7
    ∧ (mergeDynamic
        { p95_ms := some 40, avg_ms := some 7, rows_examined := some 123 }
        { p95_ms := some 12, avg_ms := none }).rows_examined = some 123 := by
  obtain ⟨h1, _, _, h4, h5, _⟩ := dynamic_checks_merge_amended
    { p95_ms := some 40, avg_ms := some 7, rows_examined := some 123 }
    { p95_ms := some 12, avg_ms := none }
  exact ⟨h1 12 (by norm_num) rfl, h4 (Or.inl rfl), h5⟩

/-! ## Locating a suggestion inside an `optimize_query` run -/

theorem optimize_query_any_id (e : Expr) (q : Query) (d : Option DynamicMetrics)
    (conn : Option (String → Option DynamicMetrics)) (tid : String) :
    ((optimize_query (some e) q d conn).any fun s => s.suggestion_id == tid)
      = ((suggestionBlocks e q d).any fun s => s.suggestion_id == tid) := by
  cases conn with
  | none => rw [optimize_query_conn_none]
  | some probe =>
      rw [optimize_query_conn_some, List.any_map]
      have hfun : ((fun s : Suggestion => s.suggestion_id == tid) ∘ validateSuggestion probe)
          = fun s : Suggestion => s.suggestion_id == tid := by
        funext s
        simp only [Function.comp_apply, (validateSuggestion_preserves probe s).1]
      rw [hfun]

theorem mem_optimize_query_block (e : Expr) (q : Query) (d : Option DynamicMetrics)
    (conn : Option (String → Option DynamicMetrics)) (s : Suggestion)
    (hs : s ∈ optimize_query (some e) q d conn) :
    ∃ s0 ∈ suggestionBlocks e q d,
      s.suggestion_id = s0.suggestion_id ∧ s.type = s0.type ∧ s.ddl = s0.ddl
        ∧ s.sql_after = s0.sql_after := by
  cases conn with
  | none =>
      rw [optimize_query_conn_none] at hs
      exact ⟨s, hs, rfl, rfl, rfl, rfl⟩
  | some probe =>
      rw [optimize_query_conn_some] at hs
      obtain ⟨s0, hs0, rfl⟩ := List.mem_map.mp hs
      obtain ⟨h1, h2, h3, h4⟩ := validateSuggestion_preserves probe s0
      exact ⟨s0, hs0, h1, h2, h3, h4⟩

theorem mem_suggestionBlocks (e : Expr) (q : Query) (d : Option DynamicMetrics)
    (s : Suggestion) (hs : s ∈ suggestionBlocks e q d) :
    s ∈ idxSuggestions q (_table_name e) (_where_columns e) (slowFlag d)
    ∨ s ∈ dateSuggestions q e ∨ s ∈ offsetSuggestions q e ∨ s ∈ inSuggestions q e
    ∨ s ∈ fulltextSuggestions q e := by
  simp only [suggestionBlocks, List.append_assoc, List.mem_append] at hs
  tauto

theorem any_id_false_of_tag {bl : List Suggestion} {qid t u : String}
    (hids : ∀ s ∈ bl, s.suggestion_id = qid ++ t) (hne : t ≠ u) :
    (bl.any fun s => s.suggestion_id == qid ++ u) = false := by
  rw [List.any_eq_false]
  intro s hs
  simp only [hids s hs, beq_iff_eq]
  exact suggestion_tag_ne qid hne

theorem idxSuggestions_any_iff (q : Query) (table : Option String) (cols : List String)
    (slow : Bool) :
    ((idxSuggestions q table cols slow).any fun s => s.suggestion_id == q.id ++ "-idx") = true
      ↔ (∃ t, table = some t ∧ t ≠ "") ∧ cols ≠ [] ∧ slow = true := by
  rcases table with _ | t
  · simp [idxSuggestions]
  · simp only [idxSuggestions]
    split
    case isTrue hcond =>
      have hc : (¬t = "" ∧ ¬cols = []) ∧ slow = true := by
        simpa [List.isEmpty_iff] using hcond
      constructor
      · intro _
        exact ⟨⟨t, rfl, hc.1.1⟩, hc.1.2, hc.2⟩
      · intro _
        simp
    case isFalse hcond =>
      simp only [List.any_nil, Bool.false_eq_true, false_iff, not_and]
      rintro ⟨t2, ht2, htne⟩ hcne hslow
      cases Option.some.inj ht2
      exact hcond (by simp [List.isEmpty_iff, htne, hcne, hslow])

theorem idxSuggestions_mem_elim {q : Query} {table : Option String} {cols : List String}
    {slow : Bool} {s : Suggestion} (hs : s ∈ idxSuggestions q table cols slow) :
    ∃ t, table = some t ∧ t ≠ "" ∧ cols ≠ [] ∧ slow = true
      ∧ s.suggestion_id = q.id ++ "-idx" ∧ s.type = "index_ddl"
      ∧ s.ddl = some ("CREATE INDEX idx_" ++ t ++ "_composite ON " ++ t ++ " (" ++
          String.intercalate ", " cols ++ ");") := by
  rcases table with _ | t
  · simp [idxSuggestions] at hs
  · simp only [idxSuggestions] at hs
    split at hs
    case isTrue hcond =>
      have hc : (¬t = "" ∧ ¬cols = []) ∧ slow = true := by
        simpa [List.isEmpty_iff] using hcond
      obtain rfl := List.mem_singleton.mp hs
      exact ⟨t, rfl, hc.1.1, hc.1.2, hc.2, rfl, rfl, rfl⟩
    case isFalse hcond => simp at hs

theorem inSuggestions_any_iff (q : Query) (e : Expr) :
    ((inSuggestions q e).any fun s => s.suggestion_id == q.id ++ "-in") = true
      ↔ (_or_chain_to_in e).isSome = true := by
  unfold inSuggestions
  split
  case h_1 col values heq => simp [heq]
  case h_2 heq => simp [heq]

theorem inSuggestions_mem_elim {q : Query} {e : Expr} {s : Suggestion}
    (hs : s ∈ inSuggestions q e) :
    ∃ c vs, _or_chain_to_in e = some (c, vs) ∧ s.suggestion_id = q.id ++ "-in"
      ∧ s.sql_after = some (q.sql ++ " -- Consider " ++ c ++ " IN (" ++
          String.intercalate ", " vs ++ ")") := by
  unfold inSuggestions at hs
  split at hs
  case h_1 col values heq =>
      obtain rfl := List.mem_singleton.mp hs
      exact ⟨col, values, heq, rfl, rfl⟩
  case h_2 => simp at hs

theorem _table_name_ne_empty {e : Expr} {t : String} (h : _table_name e = some t) :
    t ≠ "" := by
  unfold _table_name at h
  split at h
  case h_1 tnode heq =>
      split at h
      · exact absurd h (by simp)
      case isFalse hne =>
          cases Option.some.inj h
          simpa using hne
  case h_2 => exact absurd h (by simp)

theorem pyBoolOpt_eq_true (o : Option Bool) : pyBoolOpt o = true ↔ o = some true := by
  cases o with
  | none => simp [pyBoolOpt]
  | some b => cases b <;> simp [pyBoolOpt]

theorem pyOrQ0_gt500_iff (o : Option ℚ) :
    ((500 : ℚ) < pyOrQ0 o) ↔ ∃ v, o = some v ∧ 500 < v := by
  cases o with
  | none => simp [pyOrQ0]
  | some v =>
      simp only [pyOrQ0, Option.some.injEq]
      split
      case isTrue hv =>
        have hv0 : v = 0 := by simpa using hv
        subst hv0
        simp
      case isFalse hv =>
        constructor
        · intro h
          exact ⟨v, rfl, h⟩
        · rintro ⟨w, rfl, hw⟩
          exact hw

theorem pyOrI0_gt10000_iff (o : Option Int) :
    ((10000 : Int) < pyOrI0 o) ↔ ∃ n, o = some n ∧ 10000 < n := by
  cases o with
  | none => simp [pyOrI0]
  | some v =>
      simp only [pyOrI0, Option.some.injEq]
      split
      case isTrue hv =>
        have hv0 : v = 0 := by simpa using hv
        subst hv0
        simp
      case isFalse hv =>
        constructor
        · intro h
          exact ⟨v, rfl, h⟩
        · rintro ⟨w, rfl, hw⟩
          exact hw

/-- The slow-query flag holds exactly when a metrics object is present whose
p95 strictly exceeds 500 ms, or whose rows-examined count strictly exceeds
10000, or whose filesort or temp-table flag is set to `True`; absent metrics
never contribute. -/
theorem slowFlag_iff (d : Option DynamicMetrics) :
    slowFlag d = true ↔ ∃ m, d = some m ∧
      ((∃ v, m.p95_ms = some v ∧ 500 < v) ∨ (∃ n, m.rows_examined = some n ∧ 10000 < n)
        ∨ m.using_filesort = some true ∨ m.using_temp_table = some true) := by
  cases d with
  | none => simp [slowFlag]
  | some m =>
      simp only [slowFlag, Bool.or_eq_true, decide_eq_true_eq, Option.some.injEq]
      rw [pyOrQ0_gt500_iff, pyOrI0_gt10000_iff, pyBoolOpt_eq_true, pyBoolOpt_eq_true]
      constructor
      · intro h
        refine ⟨m, rfl, ?_⟩
        rcases h with ((h | h) | h) | h
        · exact Or.inl h
        · exact Or.inr (Or.inl h)
        · exact Or.inr (Or.inr (Or.inl h))
        · exact Or.inr (Or.inr (Or.inr h))
      · rintro ⟨m2, hm2, h⟩
        cases hm2
        rcases h with h | h | h | h
        · exact Or.inl (Or.inl (Or.inl h))
        · exact Or.inl (Or.inl (Or.inr h))
        · exact Or.inl (Or.inr h)
        · exact Or.inr h

/-! ## C5: the index-DDL suggestion -/

/-- Number of table references in a statement (the claim speaks of "a
single table").  Modelled from the claim sentence for comparison with the
implementation, which only looks at the *first* table found. -/
def countTables (e : Expr) : Nat := (find_all Expr.isTable e).length

/-- The index-suggestion trigger as the claim words it: slow, exactly one
table referenced, at least one WHERE column. -/
def claimIndexTrigger (e : Expr) (d : Option DynamicMetrics) : Bool :=
  slowFlag d && countTables e == 1 && !(_where_columns e).isEmpty

/-- The two-table join of the C5 counterexample. -/
def c5Tree : Expr :=
  .selectE [.star] [.table "t1", .table "t2"]
    (some (.eq (.column "a") (.lit "1"))) none

/-- The query record of the C5 counterexample. -/
def c5Query : Query :=
  { id := "q5", sql := "SELECT * FROM t1 JOIN t2 ON t1.id = t2.ref WHERE a = 1",
    raw_sql := "SELECT * FROM t1 JOIN t2 ON t1.id = t2.ref WHERE a = 1",
    source_path := "j.py", lineno := 11, kind := "select" }

/-- Slow metrics for the C5 counterexample (p95 of 600 ms). -/
def c5Metrics : DynamicMetrics := { p95_ms := some 600 }

/-- C5 counterexample: a slow statement joining *two* tables with a WHERE
column still receives the index-DDL suggestion (named after the first
table), although the claim's trigger — which demands a single referenced
table — is false. -/
theorem optimize_query_index_counterexample :
    claimIndexTrigger c5Tree (some c5Metrics) = false
    ∧ countTables c5Tree = 2
    ∧ slowFlag (some c5Metrics) = true
    ∧ _where_columns c5Tree = ["a"]
    ∧ ((optimize_query (some c5Tree) c5Query (some c5Metrics) none).any
        fun s => s.suggestion_id == c5Query.id ++ "-idx") = true := by
  refine ⟨by decide, rfl, by decide, rfl, by decide⟩

/-- C5 (amended): the index-DDL suggestion is emitted exactly when the slow
flag holds, the statement references at least one named table (the first
table found in breadth-first order supplies the name), and the WHERE clause
contributes at least one column; the proposed DDL is a composite index over
the WHERE columns in discovery order, named from that first table. -/
theorem optimize_query_index_amended (e : Expr) (q : Query)
    (d : Option DynamicMetrics) (conn : Option (String → Option DynamicMetrics)) :
    (((optimize_query (some e) q d conn).any fun s => s.suggestion_id == q.id ++ "-idx") = true
      ↔ slowFlag d = true ∧ (_table_name e).isSome = true ∧ _where_columns e ≠ [])
    ∧ (slowFlag d = true ↔ ∃ m, d = some m ∧
        ((∃ v, m.p95_ms = some v ∧ 500 < v) ∨ (∃ n, m.rows_examined = some n ∧ 10000 < n)
          ∨ m.using_filesort = some true ∨ m.using_temp_table = some true))
    ∧ (∀ s ∈ optimize_query (some e) q d conn, s.suggestion_id = q.id ++ "-idx" →
        ∃ t, _table_name e = some t ∧ s.type = "index_ddl" ∧
          s.ddl = some ("CREATE INDEX idx_" ++ t ++ "_composite ON " ++ t ++ " (" ++
            String.intercalate ", " (_where_columns e) ++ ");")) := by
  refine ⟨?_, slowFlag_iff d, ?_⟩
  · rw [optimize_query_any_id]
    unfold suggestionBlocks
    simp only [List.any_append, Bool.or_eq_true]
    rw [any_id_false_of_tag (dateSuggestions_spec q e).1 (by decide),
        any_id_false_of_tag (offsetSuggestions_spec q e).1 (by decide),
        any_id_false_of_tag (inSuggestions_spec q e).1 (by decide),
        any_id_false_of_tag (fulltextSuggestions_spec q e).1 (by decide)]
    simp only [Bool.false_eq_true, or_false]
    rw [idxSuggestions_any_iff]
    constructor
    · rintro ⟨⟨t, ht, _⟩, hc, hslow⟩
      exact ⟨hslow, by simp [ht], hc⟩
    · rintro ⟨hslow, hsome, hc⟩
      obtain ⟨t, ht⟩ := Option.isSome_iff_exists.mp hsome
      exact ⟨⟨t, ht, _table_name_ne_empty ht⟩, hc, hslow⟩
  · intro s hs hid
    obtain ⟨s0, hs0, hpid, hptype, hpddl, _⟩ := mem_optimize_query_block e q d conn s hs
    have hs0id : s0.suggestion_id = q.id ++ "-idx" := by rw [← hpid, hid]
    rcases mem_suggestionBlocks e q d s0 hs0 with h0 | h0 | h0 | h0 | h0
    · obtain ⟨t, ht, _, _, _, _, htype, hddl⟩ := idxSuggestions_mem_elim h0
      exact ⟨t, ht, by rw [hptype, htype], by rw [hpddl, hddl]⟩
    · exact absurd (hs0id ▸ (dateSuggestions_spec q e).1 s0 h0)
        (suggestion_tag_ne q.id (by decide))
    · exact absurd (hs0id ▸ (offsetSuggestions_spec q e).1 s0 h0)
        (suggestion_tag_ne q.id (by decide))
    · exact absurd (hs0id ▸ (inSuggestions_spec q e).1 s0 h0)
        (suggestion_tag_ne q.id (by decide))
    · exact absurd (hs0id ▸ (fulltextSuggestions_spec q e).1 s0 h0)
        (suggestion_tag_ne q.id (by decide))

/-- A slow single-table statement with one WHERE column, for the C5
witness. -/
def c5GoodTree : Expr :=
  .selectE [.star] [.table "users"] (some (.eq (.column "email") (.lit "x"))) none

/-- The query record of the C5 witness. -/
def c5GoodQuery : Query :=
  { id := "qg", sql := "SELECT * FROM users WHERE email = 1",
    raw_sql := "SELECT * FROM users WHERE email = 1",
    source_path := "g.py", lineno := 2, kind := "select" }

/-- Witness for C5 (amended): the suggestion fires on a slow single-table
statement with a WHERE column. -/
theorem optimize_query_index_amended_witness :
    ((optimize_query (some c5GoodTree) c5GoodQuery (some c5Metrics) none).any
      fun s => s.suggestion_id == c5GoodQuery.id ++ "-idx") = true :=
  (optimize_query_index_amended c5GoodTree c5GoodQuery (some c5Metrics) none).1.mpr
    ⟨by decide, by decide, by decide⟩

/-! ## C3: the OR-to-IN suggestion -/

/-- An OR chain flattened as the claim words it: the disjuncts of an `Or`
node through nested `Or`s. -/
def disjuncts : Expr → List Expr
  | .orE a b => disjuncts a ++ disjuncts b
  | e => [e]

/-- The columns of the column-literal equality comparisons among a chain's
disjuncts. -/
def chainEqColumns (o : Expr) : List String :=
  (disjuncts o).filterMap fun d =>
    match d with
    | .eq (.column n) (.lit _) => some n
    | _ => none

/-- The OR-to-IN trigger as the claim words it: some OR chain contains
three or more equality comparisons of the same column against literal
values.  Modelled from the claim sentence for comparison with the
implementation. -/
def claimOrToInTrigger (e : Expr) : Bool :=
  (find_all Expr.isOr e).any fun o =>
    (chainEqColumns o).any fun c =>
      3 ≤ ((chainEqColumns o).filter fun c2 => c2 == c).length

/-- The chain `a = 1 OR a = 2 OR a = 3 OR b = 4` of the C3 counterexample:
three equality comparisons on column `a`. -/
def c3Tree : Expr :=
  .selectE [.star] [.table "t"]
    (some (.orE
      (.orE (.orE (.eq (.column "a") (.lit "1")) (.eq (.column "a") (.lit "2")))
        (.eq (.column "a") (.lit "3")))
      (.eq (.column "b") (.lit "4")))) none

/-- The query record of the C3 counterexample. -/
def c3Query : Query :=
  { id := "q3", sql := "SELECT * FROM t WHERE a = 1 OR a = 2 OR a = 3 OR b = 4",
    raw_sql := "SELECT * FROM t WHERE a = 1 OR a = 2 OR a = 3 OR b = 4",
    source_path := "m.py", lineno := 7, kind := "select" }

/-- The canonical chain `id = 1 OR id = 2 OR id = 3` (three equality
comparisons on one column). -/
def c3ChainTree : Expr :=
  .selectE [.star] [.table "users"]
    (some (.orE (.orE (.eq (.column "id") (.lit "1")) (.eq (.column "id") (.lit "2")))
      (.eq (.column "id") (.lit "3")))) none

/-- The query record of the C3 witness. -/
def c3ChainQuery : Query :=
  { id := "qc", sql := "SELECT * FROM users WHERE id = 1 OR id = 2 OR id = 3",
    raw_sql := "SELECT * FROM users WHERE id = 1 OR id = 2 OR id = 3",
    source_path := "c.py", lineno := 4, kind := "select" }

/-- C3 counterexample.  First: `a = 1 OR a = 2 OR a = 3 OR b = 4` contains
an OR chain with three equality comparisons on column `a`, yet no
suggestion is emitted — the detector collects `(column, literal)` pairs per
`Or` node of the breadth-first walk, so its first pair is the shallowest
equality `b = 4`, whose column has fewer than three collected entries.
Second: even on `id = 1 OR id = 2 OR id = 3` the suggested IN list is not
"that column and its compared literals": the nested-`Or` re-walk collects
literals with duplicates and in breadth-first order, `[3, 1, 2, 1, 2]`. -/
theorem or_chain_to_in_counterexample :
    claimOrToInTrigger c3Tree = true
    ∧ _or_chain_to_in c3Tree = none
    ∧ ((optimize_query (some c3Tree) c3Query none none).any
        fun s => s.suggestion_id == c3Query.id ++ "-in") = false
    ∧ _or_chain_to_in c3ChainTree = some ("id", ["3", "1", "2", "1", "2"]) := by
  refine ⟨by decide, rfl, by decide, rfl⟩

theorem or_chain_to_in_some_elim {e : Expr} {c : String} {vs : List String}
    (h : _or_chain_to_in e = some (c, vs)) :
    (∃ v0 rest, orEqPairs e = (c, v0) :: rest)
    ∧ vs = ((orEqPairs e).filter fun p => p.1 == c).map Prod.snd
    ∧ 3 ≤ vs.length := by
  unfold _or_chain_to_in at h
  split at h
  case h_1 => exact absurd h (by simp)
  case h_2 first_col v0 rest heq =>
      simp only at h
      split at h
      case isTrue hlen =>
          have hpair := Option.some.inj h
          rw [Prod.mk.injEq] at hpair
          obtain ⟨hc, hvs⟩ := hpair
          subst hc
          subst hvs
          refine ⟨⟨v0, rest, heq⟩, ?_, hlen⟩
          rw [heq]
      case isFalse => exact absurd h (by simp)

/-- C3 (amended): the detector walks every `Or` node of the tree in
breadth-first order and collects, per `Or` node, each equality comparison
of a column against a literal beneath it (an equality nested under `k` `Or`
nodes is collected `k` times).  The suggestion is emitted exactly when the
column of the *first collected* pair accounts for at least three entries of
this collection; the suggested IN list holds that column's collected
literals, in collection order and with multiplicity. -/
theorem or_chain_to_in_amended (e : Expr) (q : Query) (d : Option DynamicMetrics)
    (conn : Option (String → Option DynamicMetrics)) :
    (((optimize_query (some e) q d conn).any fun s => s.suggestion_id == q.id ++ "-in") = true
      ↔ (_or_chain_to_in e).isSome = true)
    ∧ (∀ c vs, _or_chain_to_in e = some (c, vs) →
        (∃ v0 rest, orEqPairs e = (c, v0) :: rest)
        ∧ vs = ((orEqPairs e).filter fun p => p.1 == c).map Prod.snd
        ∧ 3 ≤ vs.length)
    ∧ (∀ s ∈ optimize_query (some e) q d conn, s.suggestion_id = q.id ++ "-in" →
        ∀ c vs, _or_chain_to_in e = some (c, vs) →
          s.sql_after = some (q.sql ++ " -- Consider " ++ c ++ " IN (" ++
            String.intercalate ", " vs ++ ")")) := by
  refine ⟨?_, fun c vs h => or_chain_to_in_some_elim h, ?_⟩
  · rw [optimize_query_any_id]
    unfold suggestionBlocks
    simp only [List.any_append, Bool.or_eq_true]
    rw [any_id_false_of_tag (idxSuggestions_spec q (_table_name e) (_where_columns e)
          (slowFlag d)).1 (by decide),
        any_id_false_of_tag (dateSuggestions_spec q e).1 (by decide),
        any_id_false_of_tag (offsetSuggestions_spec q e).1 (by decide),
        any_id_false_of_tag (fulltextSuggestions_spec q e).1 (by decide)]
    simp only [Bool.false_eq_true, false_or, or_false]
    exact inSuggestions_any_iff q e
  · intro s hs hid c vs hsome
    obtain ⟨s0, hs0, hpid, _, _, hpsql⟩ := mem_optimize_query_block e q d conn s hs
    have hs0id : s0.suggestion_id = q.id ++ "-in" := by rw [← hpid, hid]
    rcases mem_suggestionBlocks e q d s0 hs0 with h0 | h0 | h0 | h0 | h0
    · obtain ⟨t, _, _, _, _, hsid, _, _⟩ := idxSuggestions_mem_elim h0
      exact absurd (hs0id ▸ hsid.symm) (suggestion_tag_ne q.id (by decide)).symm
    · exact absurd (hs0id ▸ (dateSuggestions_spec q e).1 s0 h0)
        (suggestion_tag_ne q.id (by decide))
    · exact absurd (hs0id ▸ (offsetSuggestions_spec q e).1 s0 h0)
        (suggestion_tag_ne q.id (by decide))
    · obtain ⟨c2, vs2, hsome2, _, hsql⟩ := inSuggestions_mem_elim h0
      rw [hsome] at hsome2
      have hpair := Option.some.inj hsome2
      rw [Prod.mk.injEq] at hpair
      obtain ⟨hc2, hvs2⟩ := hpair
      subst hc2
      subst hvs2
      rw [hpsql, hsql]
    · exact absurd (hs0id ▸ (fulltextSuggestions_spec q e).1 s0 h0)
        (suggestion_tag_ne q.id (by decide))

/-- Witness for C3 (amended) on `id = 1 OR id = 2 OR id = 3`: the
suggestion fires, and the collected values for column `id` are
`[3, 1, 2, 1, 2]`. -/
theorem or_chain_to_in_amended_witness :
    (((optimize_query (some c3ChainTree) c3ChainQuery none none).any
        fun s => s.suggestion_id == c3ChainQuery.id ++ "-in") = true)
    ∧ (["3", "1", "2", "1", "2"] : List String) =
        ((orEqPairs c3ChainTree).filter fun p => p.1 == "id").map Prod.snd := by
  have h := or_chain_to_in_amended c3ChainTree c3ChainQuery none none
  exact ⟨h.1.mpr (by decide), (h.2.1 "id" ["3", "1", "2", "1", "2"] (by decide)).2.1⟩

end SQLQA
